import Mathlib

/-
Shallow embedding of src/js/chromecast/ChromecastSessionManager.js.

The JavaScript class is an event-driven adapter between a Video.js player and
the Chromecast SDK.  We embed it as pure functions over:
  - `CastEnv`: the externally owned environment (window namespaces, the cast
    context singleton state, the current session, and the outcome of a
    `requestSession()` promise);
  - `Statics`: the process-wide static fields of the class
    (`hasConnected`, `remotePlayer`, `remotePlayerController`);
  - `Player`: the host Video.js player state read by this component.
Handlers return an updated `Statics` together with a trace of observable
effects (events triggered on the player, session requests, listener changes,
and tech-reload invocations with their arguments).  A JavaScript TypeError
(calling a method on `null`) is modelled with `Except`.
-/

namespace ChromecastSM

/-- The Chromecast SDK cast states (cast.framework.CastState). -/
inductive CastState
  | NO_DEVICES_AVAILABLE
  | NOT_CONNECTED
  | CONNECTING
  | CONNECTED
  deriving DecidableEq, Repr

/-- The Chromecast SDK session states (cast.framework.SessionState). -/
inductive SessionState
  | NO_SESSION
  | SESSION_STARTING
  | SESSION_STARTED
  | SESSION_START_FAILED
  | SESSION_ENDING
  | SESSION_ENDED
  | SESSION_RESUMED
  deriving DecidableEq, Repr

/-- The media status returned by `castSession.getMediaSession()`: whether it
carries an active media item (truthiness of `mediaStatus.media`), its
`currentTime`, and its `playerState` string. -/
structure MediaStatus where
  media : Bool
  currentTime : Nat
  playerState : String
  deriving DecidableEq, Repr

/-- A cast session as read by this component: `getMediaSession()` may return
null (`none`). -/
structure CastSession where
  mediaSession : Option MediaStatus
  deriving DecidableEq, Repr

/-- The host Video.js player state read by the component: whether
`currentSource()` is truthy, the live `currentTime()`, the `paused()` flag,
and the `currentSources()` list (sources kept opaque as strings). -/
structure Player where
  hasCurrentSource : Bool
  currentTime : Nat
  paused : Bool
  sources : List String
  deriving DecidableEq, Repr

/-- The externally owned environment: presence of `window.chrome`,
`window.chrome.cast` and `window.cast`; the cast context singleton state
(`getCastState()`, `getSessionState()`, `getCurrentSession()`); and whether
the `requestSession()` promise fulfils or rejects. -/
structure CastEnv where
  chromeNS : Bool
  chromeCastNS : Bool
  castNS : Bool
  castState : CastState
  sessionState : SessionState
  currentSession : Option CastSession
  requestSessionSucceeds : Bool
  deriving DecidableEq, Repr

/-- The static (process-wide) fields of ChromecastSessionManager: the
`hasConnected` flag and the lazily created remote player handle pair
(handles modelled as numeric identifiers, `none` before creation). -/
structure Statics where
  hasConnected : Bool
  remotePlayer : Option Nat
  remotePlayerController : Option Nat
  deriving DecidableEq, Repr

/-- The static field initializers: `hasConnected = false` and no remote
player handles created yet. -/
def initialStatics : Statics :=
  { hasConnected := false, remotePlayer := none, remotePlayerController := none }

/-- Commands issued to the host player by the tech-reload operation. -/
inductive PlayerCmd
  | src (sources : List String)
  | play
  | pause
  | seek (t : Nat)
  deriving DecidableEq, Repr

/-- Observable effects of the component apart from static-field updates:
events triggered on the host player, a `requestSession()` call, cast-context
listener registration and removal, and a tech-reload invocation recorded with
the arguments passed to `_reloadTech`. -/
inductive Effect
  | trigger (eventName : String)
  | requestSession
  | addListeners
  | removeListeners
  | reloadTech (time : Option Nat) (playing : Option Bool)
  deriving DecidableEq, Repr

/-- A JavaScript runtime error: here only the TypeError raised by invoking a
method on null. -/
inductive JsError
  | typeError
  deriving DecidableEq, Repr

/-- JavaScript `a || d` where `a` is an optional number: `undefined` and `0`
are falsy, every other number is returned unchanged. -/
def jsOrNat : Option Nat → Nat → Nat
  | some t, d => if t = 0 then d else t
  | none, d => d

/-- JavaScript `a || d` where `a` is an optional boolean: `undefined` and
`false` are falsy. -/
def jsOrBool : Option Bool → Bool → Bool
  | some b, d => b || d
  | none, d => d

/-- The time captured by `_reloadTech`:
`currentTime = sessionCurrentTime || player.currentTime()`. -/
def capturedTime (sessionCurrentTime : Option Nat) (p : Player) : Nat :=
  jsOrNat sessionCurrentTime p.currentTime

/-- The play state captured by `_reloadTech`:
`wasPlaying = sessionPlaying || !player.paused()`. -/
def capturedPlaying (sessionPlaying : Option Bool) (p : Player) : Bool :=
  jsOrBool sessionPlaying (!p.paused)

/-- The body of `_reloadTech(sessionCurrentTime, sessionPlaying)`: capture
time and play state, re-apply `player.src(player.currentSources())`, then in
the `player.ready` callback restore play or pause and seek to
`currentTime || 0`. -/
def reloadTech (sessionCurrentTime : Option Nat) (sessionPlaying : Option Bool)
    (p : Player) : List PlayerCmd :=
  let currentTime := capturedTime sessionCurrentTime p
  let wasPlaying := capturedPlaying sessionPlaying p
  [PlayerCmd.src p.sources,
   if wasPlaying then PlayerCmd.play else PlayerCmd.pause,
   PlayerCmd.seek (jsOrNat (some currentTime) 0)]

/-- `_reloadTechWithSources(mediaStatus)`: forwards
`mediaStatus.currentTime` and `mediaStatus.playerState === 'PLAYING'` to
`_reloadTech`; recorded as a reload-invocation effect. -/
def reloadTechWithSources (m : MediaStatus) : Effect :=
  Effect.reloadTech (some m.currentTime) (some (m.playerState == "PLAYING"))

/-- `_onSessionResumed()`: reads the current session from the cast context
(a null session makes `castSession.getMediaSession()` throw a TypeError),
sets the static `hasConnected` flag, triggers `chromecastConnected`, and
reloads the tech with continuity data when the media status exists and
carries an active media item, with no arguments otherwise. -/
def onSessionResumed (env : CastEnv) (st : Statics) :
    Except JsError (Statics × List Effect) :=
  match env.currentSession with
  | none => Except.error JsError.typeError
  | some castSession =>
    let st2 := { st with hasConnected := true }
    match castSession.mediaSession with
    | some m =>
      if m.media then
        Except.ok (st2, [Effect.trigger "chromecastConnected", reloadTechWithSources m])
      else
        Except.ok (st2, [Effect.trigger "chromecastConnected", Effect.reloadTech none none])
    | none =>
      Except.ok (st2, [Effect.trigger "chromecastConnected", Effect.reloadTech none none])

/-- `_onSessionStateChange(event)`: on SESSION_ENDED trigger
`chromecastDisconnected` and reload the tech with no arguments; on
SESSION_RESUMED delegate to `_onSessionResumed`; otherwise do nothing. -/
def onSessionStateChange (env : CastEnv) (st : Statics) (sessionState : SessionState) :
    Except JsError (Statics × List Effect) :=
  if sessionState = SessionState.SESSION_ENDED then
    Except.ok (st, [Effect.trigger "chromecastDisconnected", Effect.reloadTech none none])
  else if sessionState = SessionState.SESSION_RESUMED then
    onSessionResumed env st
  else
    Except.ok (st, [])

/-- `hasAvailableDevices(castState)`: fall back to
`getCastContext().getCastState()` when the argument is absent (the enum
string values are all truthy, so the JS `||` fallback fires exactly on a
missing argument), then test membership in
{NOT_CONNECTED, CONNECTING, CONNECTED}. -/
def hasAvailableDevices (env : CastEnv) (castState : Option CastState) : Bool :=
  let cs := castState.getD env.castState
  cs == CastState.NOT_CONNECTED || cs == CastState.CONNECTING || cs == CastState.CONNECTED

/-- `_notifyPlayerOfDevicesAvailabilityChange(castState)`: trigger exactly one
of the two availability events according to `hasAvailableDevices`. -/
def notifyPlayerOfDevicesAvailabilityChange (env : CastEnv) (castState : CastState) :
    List Effect :=
  if hasAvailableDevices env (some castState) then
    [Effect.trigger "chromecastDevicesAvailable"]
  else
    [Effect.trigger "chromecastDevicesUnavailable"]

/-- `_onCastStateChange(event)`: recompute availability from the event state
and notify; no static state changes. -/
def onCastStateChange (env : CastEnv) (st : Statics) (castState : CastState) :
    Statics × List Effect :=
  (st, notifyPlayerOfDevicesAvailabilityChange env castState)

/-- `openCastMenu()`: return immediately when the player has no current
source; otherwise call `requestSession()`, and on fulfilment set the static
`hasConnected` flag, trigger `chromecastConnected` and reload the tech with
no arguments, while on rejection run the noop handler. -/
def openCastMenu (env : CastEnv) (st : Statics) (p : Player) :
    Statics × List Effect :=
  if !p.hasCurrentSource then
    (st, [])
  else if env.requestSessionSucceeds then
    ({ st with hasConnected := true },
     [Effect.requestSession, Effect.trigger "chromecastConnected",
      Effect.reloadTech none none])
  else
    (st, [Effect.requestSession])

/-- Static `isChromecastAPIAvailable()`:
`window.chrome && window.chrome.cast && window.cast` (truthiness as Bool). -/
def isChromecastAPIAvailable (env : CastEnv) : Bool :=
  env.chromeNS && env.chromeCastNS && env.castNS

/-- Static `isChromecastConnected()`: API available, cast state CONNECTED,
and the static `hasConnected` flag set. -/
def isChromecastConnected (env : CastEnv) (st : Statics) : Bool :=
  isChromecastAPIAvailable env
    && (env.castState == CastState.CONNECTED)
    && st.hasConnected

/-- The constructor: register both cast-context listeners and the dispose
hook, immediately notify device availability from the current cast state,
immediately dispatch the current session state through the session listener,
then lazily create the remote player handle pair (reusing existing handles).
A TypeError thrown by the session dispatch aborts construction before the
handle initialization. -/
def construct (env : CastEnv) (st : Statics) :
    Except JsError (Statics × List Effect) :=
  let availEffects := notifyPlayerOfDevicesAvailabilityChange env env.castState
  match onSessionStateChange env st env.sessionState with
  | Except.error e => Except.error e
  | Except.ok (st2, sessEffects) =>
    let st3 := { st2 with
      remotePlayer := some (st2.remotePlayer.getD 0),
      remotePlayerController := some (st2.remotePlayerController.getD 0) }
    Except.ok (st3, [Effect.addListeners] ++ availEffects ++ sessEffects)

/-- The dispose teardown hook `_removeCastContextEventListeners`: removes the
two listeners and touches no static state. -/
def disposeBridge (st : Statics) : Statics × List Effect :=
  (st, [Effect.removeListeners])

/-- The operations of the component that can run in a process. -/
inductive Op
  | construct
  | sessionEvent (s : SessionState)
  | castEvent (c : CastState)
  | openMenu (p : Player)
  | dispose
  deriving DecidableEq, Repr

/-- One operation of the component, as an `Except` over statics and effects. -/
def step (env : CastEnv) (st : Statics) : Op → Except JsError (Statics × List Effect)
  | Op.construct => construct env st
  | Op.sessionEvent s => onSessionStateChange env st s
  | Op.castEvent c => Except.ok (onCastStateChange env st c)
  | Op.openMenu p => Except.ok (openCastMenu env st p)
  | Op.dispose => Except.ok (disposeBridge st)

/-- The statics component of an operation result; a thrown TypeError occurs
before any static mutation, so the prior statics stand on the error path. -/
def okStatics (st : Statics) : Except JsError (Statics × List Effect) → Statics
  | Except.ok (st2, _) => st2
  | Except.error _ => st

/-- The statics after an operation. -/
def stepStatics (env : CastEnv) (st : Statics) (o : Op) : Statics :=
  okStatics st (step env st o)

/-- Whether an operation is a successful session connect: SESSION_RESUMED
handling (directly or via the constructor dispatch) or a fulfilled session
request issued by `openCastMenu` with a source present. -/
def isSuccessfulConnect (env : CastEnv) : Op → Prop
  | Op.sessionEvent s => s = SessionState.SESSION_RESUMED
  | Op.construct => env.sessionState = SessionState.SESSION_RESUMED
  | Op.openMenu p => p.hasCurrentSource = true ∧ env.requestSessionSucceeds = true
  | _ => False

/-- Whether an `Except` result is a normal completion. -/
def isOkE (r : Except JsError (Statics × List Effect)) : Bool :=
  match r with
  | Except.ok _ => true
  | Except.error _ => false

end ChromecastSM

namespace ChromecastSM

/-- A concrete environment with the full API present, cast state CONNECTED,
an idle session state and no current session, used by witnesses. -/
def envConnectedNoSession : CastEnv :=
  { chromeNS := true, chromeCastNS := true, castNS := true,
    castState := CastState.CONNECTED, sessionState := SessionState.NO_SESSION,
    currentSession := none, requestSessionSucceeds := true }

/-- C10: isChromecastAPIAvailable returns true exactly when window.chrome,
window.chrome.cast and window.cast are all present; it is a pure function of
the environment with no effect on any state. -/
theorem isChromecastAPIAvailable_spec (env : CastEnv) :
    isChromecastAPIAvailable env = true ↔
      (env.chromeNS = true ∧ env.chromeCastNS = true ∧ env.castNS = true) := by
  simp [isChromecastAPIAvailable, Bool.and_eq_true, and_assoc]

/-- C6: isChromecastConnected is true exactly when the casting API is
available, the cast state is CONNECTED and the static hasConnected flag is
true; in particular it is false whenever the flag is false, regardless of the
cast state. -/
theorem isChromecastConnected_spec (env : CastEnv) (st : Statics) :
    (isChromecastConnected env st = true ↔
      (isChromecastAPIAvailable env = true ∧ env.castState = CastState.CONNECTED ∧
        st.hasConnected = true)) ∧
    (st.hasConnected = false → isChromecastConnected env st = false) := by
  constructor
  · simp [isChromecastConnected, Bool.and_eq_true, and_assoc, beq_iff_eq]
  · intro h
    simp [isChromecastConnected, h]

/-- C6 witness: with the full API present and cast state CONNECTED but the
flag never set, isChromecastConnected returns false. -/
theorem isChromecastConnected_spec_witness :
    isChromecastConnected envConnectedNoSession initialStatics = false :=
  (isChromecastConnected_spec envConnectedNoSession initialStatics).2 rfl

/-- C9: for every session state other than SESSION_ENDED and
SESSION_RESUMED, the session-state handler triggers no event, invokes no tech
reload and leaves the statics unchanged. -/
theorem otherSessionStates_noop (env : CastEnv) (st : Statics) (ss : SessionState)
    (h1 : ss ≠ SessionState.SESSION_ENDED) (h2 : ss ≠ SessionState.SESSION_RESUMED) :
    onSessionStateChange env st ss = Except.ok (st, []) := by
  simp [onSessionStateChange, h1, h2]

/-- C9 witness: a SESSION_STARTED event produces no statics change and no
effects. -/
theorem otherSessionStates_noop_witness :
    onSessionStateChange envConnectedNoSession initialStatics
      SessionState.SESSION_STARTED = Except.ok (initialStatics, []) :=
  otherSessionStates_noop envConnectedNoSession initialStatics
    SessionState.SESSION_STARTED (by decide) (by decide)

/-- C3: a SESSION_ENDED event triggers chromecastDisconnected exactly once
and invokes the tech reload with no continuity arguments, leaving the statics
unchanged. -/
theorem sessionEnded_spec (env : CastEnv) (st : Statics) :
    onSessionStateChange env st SessionState.SESSION_ENDED =
      Except.ok (st, [Effect.trigger "chromecastDisconnected",
                      Effect.reloadTech none none]) ∧
    List.count (Effect.trigger "chromecastDisconnected")
      [Effect.trigger "chromecastDisconnected", Effect.reloadTech none none] = 1 := by
  constructor
  · simp [onSessionStateChange]
  · decide

/-- C1: on SESSION_RESUMED with a current session, the handler sets the
static hasConnected flag and first triggers chromecastConnected; when the
media status exists and carries an active media item the tech reload is
invoked with that status currentTime and with playing true exactly when its
playerState equals PLAYING, and otherwise the tech reload is invoked with no
continuity arguments. -/
theorem sessionResumed_spec (env : CastEnv) (st : Statics) (s : CastSession)
    (h : env.currentSession = some s) :
    ∃ effs, onSessionStateChange env st SessionState.SESSION_RESUMED =
        Except.ok ({ st with hasConnected := true }, effs) ∧
      effs.head? = some (Effect.trigger "chromecastConnected") ∧
      (∀ m, s.mediaSession = some m → m.media = true →
        effs = [Effect.trigger "chromecastConnected",
                Effect.reloadTech (some m.currentTime)
                  (some (m.playerState == "PLAYING"))]) ∧
      ((s.mediaSession = none ∨ (∃ m, s.mediaSession = some m ∧ m.media = false)) →
        effs = [Effect.trigger "chromecastConnected", Effect.reloadTech none none]) := by
  rw [onSessionStateChange]
  simp only [reduceIte, reduceCtorEq, if_true, if_false]
  rw [onSessionResumed, h]
  cases hms : s.mediaSession with
  | none =>
    simp only [hms]
    refine ⟨[Effect.trigger "chromecastConnected", Effect.reloadTech none none], rfl, rfl, ?_, ?_⟩
    · intro m hm
      exact absurd hm (by simp)
    · intro _
      rfl
  | some m =>
    simp only [hms]
    by_cases hmedia : m.media = true
    · simp only [hmedia, if_true]
      refine ⟨[Effect.trigger "chromecastConnected", reloadTechWithSources m], rfl, rfl, ?_, ?_⟩
      · intro m2 hm2 _
        cases hm2
        rfl
      · rintro (hnone | ⟨m2, hm2, hfalse⟩)
        · exact absurd hnone (by simp)
        · cases hm2
          rw [hmedia] at hfalse
          exact absurd hfalse (by simp)
    · have hmedia2 : m.media = false := by
        cases hb : m.media
        · rfl
        · exact absurd hb hmedia
      simp only [hmedia2, Bool.false_eq_true, if_false]
      refine ⟨[Effect.trigger "chromecastConnected", Effect.reloadTech none none], rfl, rfl, ?_, ?_⟩
      · intro m2 hm2 htrue
        cases hm2
        rw [htrue] at hmedia2
        exact absurd hmedia2 (by simp)
      · intro _
        rfl

/-- A media status with an active media item at time 42 in state PLAYING. -/
def playingStatus : MediaStatus :=
  { media := true, currentTime := 42, playerState := "PLAYING" }

/-- A cast session whose media status is `playingStatus`. -/
def playingSession : CastSession :=
  { mediaSession := some playingStatus }

/-- A concrete environment whose current session has an active media item at
time 42 in state PLAYING, used by the C1 witness. -/
def envResumedPlaying : CastEnv :=
  { chromeNS := true, chromeCastNS := true, castNS := true,
    castState := CastState.CONNECTED, sessionState := SessionState.SESSION_RESUMED,
    currentSession := some playingSession,
    requestSessionSucceeds := true }

/-- C1 witness: in a resumed session whose media status has currentTime 42
and playerState PLAYING, the flag is set, chromecastConnected fires first and
the reload is invoked with time 42 and playing true. -/
theorem sessionResumed_spec_witness :
    ∃ effs, onSessionStateChange envResumedPlaying initialStatics
        SessionState.SESSION_RESUMED =
        Except.ok ({ initialStatics with hasConnected := true }, effs) ∧
      effs.head? = some (Effect.trigger "chromecastConnected") ∧
      effs = [Effect.trigger "chromecastConnected",
              Effect.reloadTech (some 42) (some true)] := by
  obtain ⟨effs, h1, h2, h3, _⟩ := sessionResumed_spec envResumedPlaying initialStatics
    playingSession (by rfl)
  refine ⟨effs, h1, h2, ?_⟩
  have h4 := h3 playingStatus rfl rfl
  rw [h4]
  rfl

/-- C4: hasAvailableDevices is true exactly on NOT_CONNECTED, CONNECTING and
CONNECTED and false on every other cast state; with no argument it evaluates
the cast context current state; every cast-state change triggers exactly one
availability event matching the predicate; and a completed construction
triggers exactly one availability event, matching the predicate on the
construction-time cast state. -/
theorem hasAvailableDevices_spec (env : CastEnv) :
    (∀ cs : CastState, hasAvailableDevices env (some cs) = true ↔
      (cs = CastState.NOT_CONNECTED ∨ cs = CastState.CONNECTING ∨
        cs = CastState.CONNECTED)) ∧
    hasAvailableDevices env none = hasAvailableDevices env (some env.castState) ∧
    (∀ st cs, (onCastStateChange env st cs).1 = st ∧
      (onCastStateChange env st cs).2 =
        (if hasAvailableDevices env (some cs) then
          [Effect.trigger "chromecastDevicesAvailable"]
        else
          [Effect.trigger "chromecastDevicesUnavailable"]) ∧
      List.count (Effect.trigger "chromecastDevicesAvailable")
          (onCastStateChange env st cs).2
        + List.count (Effect.trigger "chromecastDevicesUnavailable")
          (onCastStateChange env st cs).2 = 1) ∧
    (∀ st st2 effs, construct env st = Except.ok (st2, effs) →
      List.count (Effect.trigger "chromecastDevicesAvailable") effs
        = (if hasAvailableDevices env (some env.castState) then 1 else 0) ∧
      List.count (Effect.trigger "chromecastDevicesUnavailable") effs
        = (if hasAvailableDevices env (some env.castState) then 0 else 1)) := by
  refine ⟨?_, ?_, ?_, ?_⟩
  · intro cs
    cases cs <;> simp [hasAvailableDevices]
  · rfl
  · intro st cs
    refine ⟨rfl, rfl, ?_⟩
    by_cases hav : hasAvailableDevices env (some cs) = true
    · simp [onCastStateChange, notifyPlayerOfDevicesAvailabilityChange, hav]
    · simp only [Bool.not_eq_true] at hav
      simp [onCastStateChange, notifyPlayerOfDevicesAvailabilityChange, hav]
  · intro st st2 effs hok
    rw [construct] at hok
    have hcount : ∀ st3 sess, onSessionStateChange env st env.sessionState =
        Except.ok (st3, sess) →
        List.count (Effect.trigger "chromecastDevicesAvailable") sess = 0 ∧
        List.count (Effect.trigger "chromecastDevicesUnavailable") sess = 0 := by
      intro st3 sess hsess
      rw [onSessionStateChange] at hsess
      by_cases h1 : env.sessionState = SessionState.SESSION_ENDED
      · rw [if_pos h1] at hsess
        cases hsess
        decide
      · rw [if_neg h1] at hsess
        by_cases h2 : env.sessionState = SessionState.SESSION_RESUMED
        · rw [if_pos h2, onSessionResumed] at hsess
          cases hcs : env.currentSession with
          | none => rw [hcs] at hsess; exact absurd hsess (by simp)
          | some cse =>
            rw [hcs] at hsess
            cases hms : cse.mediaSession with
            | none =>
              simp only [hms] at hsess
              cases hsess
              decide
            | some m =>
              simp only [hms] at hsess
              by_cases hm : m.media = true
              · rw [if_pos hm] at hsess
                cases hsess
                simp [reloadTechWithSources, List.count_cons]
              · rw [if_neg hm] at hsess
                cases hsess
                decide
        · rw [if_neg h2] at hsess
          cases hsess
          decide
    cases hsess : onSessionStateChange env st env.sessionState with
    | error e => rw [hsess] at hok; exact absurd hok (by simp)
    | ok r =>
      rw [hsess] at hok
      obtain ⟨hc1, hc2⟩ := hcount r.1 r.2 (by rw [hsess])
      have heffs : effs = [Effect.addListeners]
          ++ notifyPlayerOfDevicesAvailabilityChange env env.castState ++ r.2 := by
        cases hok
        rfl
      subst heffs
      by_cases hav : hasAvailableDevices env (some env.castState) = true
      · constructor
        · simp [notifyPlayerOfDevicesAvailabilityChange, hav, List.count_append,
            List.count_cons, hc1]
        · simp [notifyPlayerOfDevicesAvailabilityChange, hav, List.count_append,
            List.count_cons, hc2]
      · simp only [Bool.not_eq_true] at hav
        constructor
        · simp [notifyPlayerOfDevicesAvailabilityChange, hav, List.count_append,
            List.count_cons, hc1]
        · simp [notifyPlayerOfDevicesAvailabilityChange, hav, List.count_append,
            List.count_cons, hc2]

/-- C4 witness: at the concrete CONNECTED environment, NOT_CONNECTED is an
available state, and a completed construction triggers the available event
exactly once and the unavailable event never. -/
theorem hasAvailableDevices_spec_witness :
    hasAvailableDevices envConnectedNoSession (some CastState.NOT_CONNECTED) = true ∧
    List.count (Effect.trigger "chromecastDevicesAvailable")
      [Effect.addListeners, Effect.trigger "chromecastDevicesAvailable"] = 1 := by
  constructor
  · exact (hasAvailableDevices_spec envConnectedNoSession).1
      CastState.NOT_CONNECTED |>.mpr (Or.inl rfl)
  · have h := (hasAvailableDevices_spec envConnectedNoSession).2.2.2 initialStatics
      { hasConnected := false, remotePlayer := some 0, remotePlayerController := some 0 }
      [Effect.addListeners, Effect.trigger "chromecastDevicesAvailable"] (by rfl)
    exact h.1

/-- C5: openCastMenu with no current source returns without a session
request, an event or a state change; otherwise it issues the session request,
and on fulfilment sets the hasConnected flag, triggers chromecastConnected
and invokes the tech reload with no continuity arguments, while on rejection
it performs no further action and completes normally. -/
theorem openCastMenu_spec (env : CastEnv) (st : Statics) (p : Player) :
    (p.hasCurrentSource = false → openCastMenu env st p = (st, [])) ∧
    (p.hasCurrentSource = true →
      Effect.requestSession ∈ (openCastMenu env st p).2 ∧
      (env.requestSessionSucceeds = true →
        openCastMenu env st p =
          ({ st with hasConnected := true },
           [Effect.requestSession, Effect.trigger "chromecastConnected",
            Effect.reloadTech none none])) ∧
      (env.requestSessionSucceeds = false →
        openCastMenu env st p = (st, [Effect.requestSession]))) := by
  constructor
  · intro hsrc
    simp [openCastMenu, hsrc]
  · intro hsrc
    refine ⟨?_, ?_, ?_⟩
    · by_cases hreq : env.requestSessionSucceeds = true
      · simp [openCastMenu, hsrc, hreq]
      · simp only [Bool.not_eq_true] at hreq
        simp [openCastMenu, hsrc, hreq]
    · intro hreq
      simp [openCastMenu, hsrc, hreq]
    · intro hreq
      simp [openCastMenu, hsrc, hreq]

/-- A player with no current source, used by the C5 witness. -/
def sourcelessPlayer : Player :=
  { hasCurrentSource := false, currentTime := 7, paused := false, sources := [] }

/-- C5 witness: with no current source, openCastMenu leaves the statics
unchanged and produces no effects, so no session request is issued. -/
theorem openCastMenu_spec_witness :
    openCastMenu envConnectedNoSession initialStatics sourcelessPlayer =
      (initialStatics, []) :=
  (openCastMenu_spec envConnectedNoSession initialStatics sourcelessPlayer).1 rfl

/-- A player that is not paused at live time 7 with one source, exhibiting
the JavaScript falsy fallback of the tech-reload arguments. -/
def unpausedPlayer : Player :=
  { hasCurrentSource := true, currentTime := 7, paused := false, sources := ["movie.mp4"] }

/-- C2 counterexample: at an explicit resume time 0 and an explicit playing
flag false on a live player at time 7 that is not paused, the claim requires
the captured time to be 0 and the captured play state to be false, but the
code captures time 7 and play state true, because the JavaScript fallback
treats 0 and false as absent. -/
theorem reloadTech_claim_counterexample :
    ¬ (capturedTime (some 0) unpausedPlayer = 0 ∧
       capturedPlaying (some false) unpausedPlayer = false) := by
  decide

/-- C2 (amended): the captured time equals the explicit resume time when it
is supplied and nonzero and equals the live player time when it is absent or
zero; the captured play state is true when the explicit flag is supplied as
true and equals the negation of the paused flag when the flag is absent or
supplied as false; and the reload re-applies the current source list, then
restores the captured play state and seeks to the captured time, with zero
kept as zero by the final falsy default. -/
theorem reloadTech_spec (ot : Option Nat) (opl : Option Bool) (p : Player) :
    (∀ t, ot = some t → t ≠ 0 → capturedTime ot p = t) ∧
    ((ot = none ∨ ot = some 0) → capturedTime ot p = p.currentTime) ∧
    (opl = some true → capturedPlaying opl p = true) ∧
    ((opl = none ∨ opl = some false) → capturedPlaying opl p = !p.paused) ∧
    reloadTech ot opl p =
      [PlayerCmd.src p.sources,
       if capturedPlaying opl p then PlayerCmd.play else PlayerCmd.pause,
       PlayerCmd.seek (capturedTime ot p)] := by
  refine ⟨?_, ?_, ?_, ?_, ?_⟩
  · intro t ht hnz
    subst ht
    simp [capturedTime, jsOrNat, hnz]
  · rintro (h | h) <;> subst h <;> simp [capturedTime, jsOrNat]
  · intro h
    subst h
    simp [capturedPlaying, jsOrBool]
  · rintro (h | h) <;> subst h <;> simp [capturedPlaying, jsOrBool]
  · rw [reloadTech]
    have hseek : jsOrNat (some (capturedTime ot p)) 0 = capturedTime ot p := by
      rw [jsOrNat]
      by_cases hz : capturedTime ot p = 0
      · rw [if_pos hz, hz]
      · rw [if_neg hz]
    rw [hseek]

/-- C2 witness: an explicit nonzero resume time 42 with an explicit playing
flag true is captured as supplied, and the reload applies the source list,
plays, and seeks to 42. -/
theorem reloadTech_spec_witness :
    capturedTime (some 42) unpausedPlayer = 42 ∧
    reloadTech (some 42) (some true) unpausedPlayer =
      [PlayerCmd.src ["movie.mp4"], PlayerCmd.play, PlayerCmd.seek 42] := by
  constructor
  · exact (reloadTech_spec (some 42) (some true) unpausedPlayer).1 42 rfl (by decide)
  · have h := (reloadTech_spec (some 42) (some true) unpausedPlayer).2.2.2.2
    rw [h]
    rfl

/-- The hasConnected flag after the session-state handler: either unchanged,
or set to true by SESSION_RESUMED handling. -/
theorem onSessionStateChange_flag (env : CastEnv) (st : Statics) (ss : SessionState)
    (st2 : Statics) (effs : List Effect)
    (h : onSessionStateChange env st ss = Except.ok (st2, effs)) :
    st2.hasConnected = st.hasConnected ∨
      (st2.hasConnected = true ∧ ss = SessionState.SESSION_RESUMED) := by
  rw [onSessionStateChange] at h
  by_cases h1 : ss = SessionState.SESSION_ENDED
  · rw [if_pos h1] at h
    cases h
    exact Or.inl rfl
  · rw [if_neg h1] at h
    by_cases h2 : ss = SessionState.SESSION_RESUMED
    · rw [if_pos h2, onSessionResumed] at h
      cases hcs : env.currentSession with
      | none =>
        rw [hcs] at h
        exact absurd h (by simp)
      | some cse =>
        rw [hcs] at h
        cases hms : cse.mediaSession with
        | none =>
          simp only [hms] at h
          cases h
          exact Or.inr ⟨rfl, h2⟩
        | some m =>
          simp only [hms] at h
          by_cases hm : m.media = true
          · rw [if_pos hm] at h
            cases h
            exact Or.inr ⟨rfl, h2⟩
          · rw [if_neg hm] at h
            cases h
            exact Or.inr ⟨rfl, h2⟩
    · rw [if_neg h2] at h
      cases h
      exact Or.inl rfl

/-- The hasConnected flag after any operation: either unchanged, or true with
the operation being a successful connect. -/
theorem stepStatics_flag (env : CastEnv) (st : Statics) (o : Op) :
    (stepStatics env st o).hasConnected = st.hasConnected ∨
      ((stepStatics env st o).hasConnected = true ∧ isSuccessfulConnect env o) := by
  cases o with
  | construct =>
    show (okStatics st (construct env st)).hasConnected = st.hasConnected ∨
      ((okStatics st (construct env st)).hasConnected = true ∧
        env.sessionState = SessionState.SESSION_RESUMED)
    cases hc : construct env st with
    | error e => exact Or.inl rfl
    | ok r =>
      obtain ⟨st3, effs⟩ := r
      rw [construct] at hc
      cases hsess : onSessionStateChange env st env.sessionState with
      | error e =>
        rw [hsess] at hc
        exact absurd hc (by simp)
      | ok r2 =>
        obtain ⟨st2, sess⟩ := r2
        rw [hsess] at hc
        have hr : st3.hasConnected = st2.hasConnected := by
          cases hc
          rfl
        have hd := onSessionStateChange_flag env st env.sessionState st2 sess hsess
        rcases hd with heq | ⟨htrue, hres⟩
        · exact Or.inl (by show st3.hasConnected = st.hasConnected; rw [hr, heq])
        · exact Or.inr ⟨by show st3.hasConnected = true; rw [hr]; exact htrue, hres⟩
  | sessionEvent s =>
    show (okStatics st (onSessionStateChange env st s)).hasConnected = st.hasConnected ∨
      ((okStatics st (onSessionStateChange env st s)).hasConnected = true ∧
        s = SessionState.SESSION_RESUMED)
    cases hc : onSessionStateChange env st s with
    | error e => exact Or.inl rfl
    | ok r =>
      obtain ⟨st2, effs⟩ := r
      have hd := onSessionStateChange_flag env st s st2 effs hc
      rcases hd with heq | ⟨htrue, hres⟩
      · exact Or.inl heq
      · exact Or.inr ⟨htrue, hres⟩
  | castEvent c => exact Or.inl rfl
  | openMenu p =>
    cases hsrc : p.hasCurrentSource with
    | false =>
      left
      show (okStatics st (Except.ok (openCastMenu env st p))).hasConnected = st.hasConnected
      rw [openCastMenu, hsrc]
      rfl
    | true =>
      cases hreq : env.requestSessionSucceeds with
      | false =>
        left
        show (okStatics st (Except.ok (openCastMenu env st p))).hasConnected = st.hasConnected
        rw [openCastMenu, hsrc, hreq]
        rfl
      | true =>
        right
        constructor
        · show (okStatics st (Except.ok (openCastMenu env st p))).hasConnected = true
          rw [openCastMenu, hsrc, hreq]
          rfl
        · exact ⟨hsrc, hreq⟩
  | dispose => exact Or.inl rfl

/-- C7: the process-wide hasConnected flag starts false, is monotone under
every operation of the component (constructing instances, session events,
cast-state events, openCastMenu and disposal), and becomes true only through
a successful connect: SESSION_RESUMED handling or a fulfilled session request
from openCastMenu with a source present. -/
theorem hasConnected_monotone :
    initialStatics.hasConnected = false ∧
    ∀ env st o,
      (st.hasConnected = true → (stepStatics env st o).hasConnected = true) ∧
      ((stepStatics env st o).hasConnected = true →
        st.hasConnected = true ∨ isSuccessfulConnect env o) := by
  refine ⟨rfl, ?_⟩
  intro env st o
  constructor
  · intro h
    rcases stepStatics_flag env st o with heq | ⟨htrue, _⟩
    · rw [heq]
      exact h
    · exact htrue
  · intro h
    rcases stepStatics_flag env st o with heq | ⟨_, hconn⟩
    · left
      rw [← heq]
      exact h
    · right
      exact hconn

/-- A statics value with the hasConnected flag already set. -/
def connectedStatics : Statics :=
  { hasConnected := true, remotePlayer := some 0, remotePlayerController := some 0 }

/-- C7 witness: a set flag survives the disposal teardown. -/
theorem hasConnected_monotone_witness :
    (stepStatics envConnectedNoSession connectedStatics Op.dispose).hasConnected = true :=
  (hasConnected_monotone.2 envConnectedNoSession connectedStatics Op.dispose).1 rfl

/-- The session-state handler completes normally whenever the cast context
has a current session. -/
theorem onSessionStateChange_ok (env : CastEnv) (st : Statics) (ss : SessionState)
    (h : env.currentSession.isSome = true) :
    isOkE (onSessionStateChange env st ss) = true := by
  rw [onSessionStateChange]
  by_cases h1 : ss = SessionState.SESSION_ENDED
  · rw [if_pos h1]
    rfl
  · rw [if_neg h1]
    by_cases h2 : ss = SessionState.SESSION_RESUMED
    · rw [if_pos h2, onSessionResumed]
      cases hcs : env.currentSession with
      | none =>
        rw [hcs] at h
        exact absurd h (by simp)
      | some cse =>
        cases hms : cse.mediaSession with
        | none => simp only [hms, isOkE]
        | some m =>
          simp only [hms]
          by_cases hm : m.media = true
          · rw [if_pos hm]
            rfl
          · rw [if_neg hm]
            rfl
    · rw [if_neg h2]
      rfl

/-- C8 counterexample: a SESSION_RESUMED event processed while the cast
context has no current session makes the handler throw a TypeError (the code
calls getMediaSession on the null result of getCurrentSession), so the claim
that no operation throws outward on every input is false. -/
theorem noThrow_counterexample :
    step envConnectedNoSession initialStatics
      (Op.sessionEvent SessionState.SESSION_RESUMED) =
      Except.error JsError.typeError := by
  rfl

/-- C8 (amended): every operation of the component completes normally
whenever the cast context has a current session; the sole failure paths are
the swallowed session-request rejection and the TypeError of SESSION_RESUMED
handling with no current session. -/
theorem noThrow_spec (env : CastEnv) (st : Statics) (o : Op)
    (h : env.currentSession.isSome = true) :
    isOkE (step env st o) = true := by
  cases o with
  | construct =>
    show isOkE (construct env st) = true
    rw [construct]
    cases hsess : onSessionStateChange env st env.sessionState with
    | error e =>
      have hok := onSessionStateChange_ok env st env.sessionState h
      rw [hsess] at hok
      exact absurd hok (by simp [isOkE])
    | ok r =>
      obtain ⟨st2, sess⟩ := r
      rfl
  | sessionEvent s =>
    show isOkE (onSessionStateChange env st s) = true
    exact onSessionStateChange_ok env st s h
  | castEvent c => rfl
  | openMenu p => rfl
  | dispose => rfl

/-- C8 witness: with a current session present, a SESSION_RESUMED event
completes normally. -/
theorem noThrow_spec_witness :
    isOkE (step envResumedPlaying initialStatics
      (Op.sessionEvent SessionState.SESSION_RESUMED)) = true :=
  noThrow_spec envResumedPlaying initialStatics
    (Op.sessionEvent SessionState.SESSION_RESUMED) rfl
